import Mathlib

/-!
Verification of the check-sparked-server audit tool (src/main.py) against its
natural-language specification.  The Python program is shallowly embedded:
each function is translated to a pure Lean function over explicit inputs
(HTTP responses become inductive data, printed output becomes a list of
strings), and the claims are settled as theorems about those definitions.
-/

namespace CheckSparked

/-! ### String helpers modelling Python str operations -/

/-- Python str.startswith: the second string is a prefix of the first. -/
def pyStartsWith (s p : String) : Bool := p.data.isPrefixOf s.data

/-- Python str.endswith: the second string is a suffix of the first. -/
def pyEndsWith (s p : String) : Bool := p.data.isSuffixOf s.data

/-- Substring containment on character lists (needle, haystack). -/
def containsSub (needle : List Char) : List Char → Bool
  | [] => needle.isEmpty
  | c :: rest => needle.isPrefixOf (c :: rest) || containsSub needle rest

/-- Python substring test: needle occurs somewhere inside hay. -/
def strHas (hay needle : String) : Bool := containsSub needle.data hay.data

/-- A single-quote character, used by Python repr of strings. -/
def quoteChar : String := String.singleton (Char.ofNat 39)

/-- Python sep.join over a list of strings. -/
def pyJoin (sep : String) : List String → String
  | [] => ""
  | [x] => x
  | x :: y :: rest => x ++ sep ++ pyJoin sep (y :: rest)

/-- Python str of a list of strings: brackets, repr-quoted elements. -/
def pyReprList (l : List String) : String :=
  "[" ++ pyJoin ", " (l.map (fun s => quoteChar ++ s ++ quoteChar)) ++ "]"

/-! ### Fixed configuration (src/main.py lines 28-48) -/

/-- The fixed tracked resource-type list (src/main.py lines 44-48). -/
def RESOURCE_TYPES_TO_CHECK : List String :=
  ["Patient", "Practitioner", "PractitionerRole", "Organization",
   "HealthcareService", "Location", "ServiceRequest", "RelatedPerson",
   "Observation", "DocumentReference", "Task", "CommunicationRequest"]

/-- Default corpus directory filters (src/main.py lines 28-29). -/
def TEST_DATA_FILTERS : List String := ["au-core", "au-erequesting"]

/-! ### Profile Version Auditor: check_versions (src/main.py lines 50-100)

A search response bundle, as consumed by check_versions.  Each entry has a
resource with optional version and status fields (absent JSON fields are
modelled as none); the bundle has an optional total field, read in Python
as bundle.get("total", 0). -/

structure Resource where
  version : Option String
  status : Option String
deriving DecidableEq

structure Entry where
  resource : Resource
deriving DecidableEq

structure Bundle where
  total : Option Int
  entry : List Entry
deriving DecidableEq

/-- Line 79: versions = [entry[resource].get(version) for entry in entries]. -/
def versionsOpt (b : Bundle) : List (Option String) :=
  b.entry.map (fun e => e.resource.version)

/-- Lines 82-86 raise KeyError when an entry with status active has no
version field; this predicate is true exactly then. -/
def activeWithMissingVersion (b : Bundle) : Bool :=
  b.entry.any (fun e => e.resource.status == some "active" && e.resource.version == none)

/-- Lines 82-86: versions of the entries whose status is active, in result
order (well-defined only when activeWithMissingVersion is false). -/
def activeVersions (b : Bundle) : List String :=
  (b.entry.filter (fun e => e.resource.status == some "active")).map
    (fun e => e.resource.version.getD "")

/-- Line 93: the version check is substring containment of "1.0.0" in the
Python str() form of the active_versions list, not structural equality. -/
def verifiedCheck (b : Bundle) : Bool :=
  strHas (pyReprList (activeVersions b)) "1.0.0"

/-- The lines printed for one profile inside the try/except of
check_versions (src/main.py lines 61-99), given the parsed bundle of a
successful search.  The two error branches model the KeyError raised by the
active-versions extraction (line 82) and the TypeError raised by joining a
versions list containing None (line 89); in Python both are caught at line
98 after any lines already printed. -/
def checkProfile (name : String) (b : Bundle) : List String :=
  if b.total.getD 0 = 0 then
    ["[!] " ++ (name ++ ": Profile not found on server.")]
  else if activeWithMissingVersion b then
    ["[X] Error checking " ++ (name ++ ": KeyError: version")]
  else if (versionsOpt b).any Option.isNone then
    ["[*] " ++ (name ++ ":"),
     "[X] Error checking " ++ (name ++ ": TypeError: sequence item is not str")]
  else
    ["[*] " ++ (name ++ ":"),
     "    - All Found Versions: " ++ pyJoin ", " ((versionsOpt b).map (fun v => v.getD "")),
     "    - Currently Active:   " ++ ((activeVersions b).headD "NONE"),
     if verifiedCheck b then "    ✅ VERIFIED: Server is updated to 1.0.0 artifacts."
     else "    ⚠️ WARNING: Server  is not serving 1.0.0 "]

/-- One profile iteration of check_versions: the try/except body followed by
the unconditional dashes line (src/main.py line 100). -/
def profileBlock (nb : String × Bundle) : List String :=
  checkProfile nb.1 nb.2 ++ ["----------------------------------------"]

/-- The per-profile loop of check_versions (src/main.py lines 57-100) over
the profiles table, with each profile search result given as a bundle. -/
def check_versions (profiles : List (String × Bundle)) : List String :=
  profiles.flatMap profileBlock

/-- The VERIFIED verdict line printed at src/main.py line 94. -/
def verifiedLine : String := "    ✅ VERIFIED: Server is updated to 1.0.0 artifacts."

/-- The WARNING verdict line printed at src/main.py line 96. -/
def warningLine : String := "    ⚠️ WARNING: Server  is not serving 1.0.0 "

/-- Example bundle: one active entry with version 1.0.0. -/
def bundleV : Bundle := ⟨some 1, [⟨⟨some "1.0.0", some "active"⟩⟩]⟩

/-- Example bundle: one active entry with version 0.9.0. -/
def bundleW : Bundle := ⟨some 1, [⟨⟨some "0.9.0", some "active"⟩⟩]⟩

/-- Example bundle: a draft entry only, so the active-versions list is empty. -/
def bundleN : Bundle := ⟨some 1, [⟨⟨some "2.0.0", some "draft"⟩⟩]⟩

/-- Example bundle: one active entry with version 11.0.0, whose repr contains
1.0.0 as a substring although no element equals it. -/
def bundleSub : Bundle := ⟨some 1, [⟨⟨some "11.0.0", some "active"⟩⟩]⟩

/-! ### Generic helper lemmas -/

lemma isPrefixOf_append_self (l t : List Char) : l.isPrefixOf (l ++ t) = true := by
  induction l with
  | nil => simp [List.isPrefixOf]
  | cons a as ih => simp [List.isPrefixOf, ih]

lemma str_data_append (a b : String) : (a ++ b).data = a.data ++ b.data := by
  cases a; cases b; rfl

lemma pyStartsWith_self_append (a r : String) : pyStartsWith (a ++ r) a = true := by
  simp [pyStartsWith, str_data_append, isPrefixOf_append_self]

/-- If the literal b does not start with a, then no extension of a equals b. -/
lemma append_ne_of_not_sw (a r b : String) (h : pyStartsWith b a = false) : a ++ r ≠ b := by
  intro heq
  rw [← heq, pyStartsWith_self_append] at h
  exact Bool.true_eq_false.mp h

/-- C2: for a profile check whose search returns a non-empty bundle (and all
entries carry a version field, so the report is reached), the verdict is
VERIFIED iff the literal string 1.0.0 occurs as a substring of the Python
str() form of the active-versions list; concretely, active versions
[1.0.0] give VERIFIED, [0.9.0] give WARNING, an empty active list prints
Currently Active: NONE with WARNING, and [11.0.0] gives VERIFIED by pure
substring containment, showing the check is not structural equality. -/
theorem C2_version_verdict :
    (∀ (name : String) (b : Bundle), b.total.getD 0 ≠ 0 →
        (∀ e ∈ b.entry, e.resource.version ≠ none) →
        (verifiedLine ∈ checkProfile name b ↔
          strHas (pyReprList (activeVersions b)) "1.0.0" = true))
    ∧ checkProfile "Patient" bundleV =
        ["[*] Patient:", "    - All Found Versions: 1.0.0",
         "    - Currently Active:   1.0.0", verifiedLine]
    ∧ checkProfile "Patient" bundleW =
        ["[*] Patient:", "    - All Found Versions: 0.9.0",
         "    - Currently Active:   0.9.0", warningLine]
    ∧ checkProfile "Patient" bundleN =
        ["[*] Patient:", "    - All Found Versions: 2.0.0",
         "    - Currently Active:   NONE", warningLine]
    ∧ checkProfile "Patient" bundleSub =
        ["[*] Patient:", "    - All Found Versions: 11.0.0",
         "    - Currently Active:   11.0.0", verifiedLine] := by
  refine ⟨?_, by decide, by decide, by decide, by decide⟩
  intro name b h1 h2
  have hamv : activeWithMissingVersion b = false := by
    rw [activeWithMissingVersion, List.any_eq_false]
    intro e he
    simp [h2 e he]
  have hvn : (versionsOpt b).any Option.isNone = false := by
    rw [List.any_eq_false]
    intro v hv
    rw [versionsOpt, List.mem_map] at hv
    obtain ⟨e, he, rfl⟩ := hv
    simp [Option.isNone_iff_eq_none, h2 e he]
  rw [checkProfile, if_neg h1, if_neg (by simp [hamv]), if_neg (by simp [hvn])]
  have n1 : verifiedLine ≠ "[*] " ++ (name ++ ":") :=
    fun h => append_ne_of_not_sw _ _ _ (by decide) h.symm
  have n2 : verifiedLine ≠
      "    - All Found Versions: " ++ pyJoin ", " ((versionsOpt b).map (fun v => v.getD "")) :=
    fun h => append_ne_of_not_sw _ _ _ (by decide) h.symm
  have n3 : verifiedLine ≠ "    - Currently Active:   " ++ ((activeVersions b).headD "NONE") :=
    fun h => append_ne_of_not_sw _ _ _ (by decide) h.symm
  by_cases hc : verifiedCheck b
  · rw [if_pos hc]
    rw [verifiedCheck] at hc
    exact ⟨fun _ => hc, fun _ => .tail _ (.tail _ (.tail _ (.head _)))⟩
  · rw [if_neg hc]
    rw [verifiedCheck] at hc
    have n4 : verifiedLine ≠ warningLine := by decide
    simp only [List.mem_cons, List.not_mem_nil, or_false]
    constructor
    · rintro (h | h | h | h)
      · exact absurd h n1
      · exact absurd h n2
      · exact absurd h n3
      · exact absurd h n4
    · intro h
      exact absurd h hc

/-- Witness for C2 at a concrete bundle with a 1.0.0 active version. -/
theorem C2_version_verdict_witness :
    verifiedLine ∈ checkProfile "Patient" bundleV :=
  (C2_version_verdict.1 "Patient" bundleV (by decide)
    (by intro e he; fin_cases he; decide)).mpr (by decide)

/-- Example bundle: non-empty, with an active entry lacking a version field. -/
def bundleM : Bundle := ⟨some 1, [⟨⟨none, some "active"⟩⟩]⟩

/-- C10: when the search bundle is non-empty but some entry resource lacks a
version field, the profile check takes the per-profile error path: its output
is exactly an error block (a KeyError from the active-versions extraction at
line 82, or the header line followed by a TypeError from joining the
versions list at line 89), with no verdict line printed; and check_versions
continues with the remaining profiles, since the output of the whole loop is
the concatenation of the per-profile blocks. -/
theorem C10_missing_version_error :
    (∀ (name : String) (b : Bundle), b.total.getD 0 ≠ 0 →
        (∃ e ∈ b.entry, e.resource.version = none) →
        (checkProfile name b = ["[X] Error checking " ++ (name ++ ": KeyError: version")]
          ∨ checkProfile name b =
              ["[*] " ++ (name ++ ":"),
               "[X] Error checking " ++ (name ++ ": TypeError: sequence item is not str")])
        ∧ verifiedLine ∉ checkProfile name b ∧ warningLine ∉ checkProfile name b)
    ∧ (∀ (pre post : List (String × Bundle)) (nb : String × Bundle),
        check_versions (pre ++ nb :: post)
          = check_versions pre ++ (profileBlock nb ++ check_versions post)) := by
  constructor
  · intro name b h1 h2
    have nv1 : verifiedLine ≠ "[X] Error checking " ++ (name ++ ": KeyError: version") :=
      fun h => append_ne_of_not_sw _ _ _ (by decide) h.symm
    have nv2 : verifiedLine ≠ "[*] " ++ (name ++ ":") :=
      fun h => append_ne_of_not_sw _ _ _ (by decide) h.symm
    have nv3 : verifiedLine ≠
        "[X] Error checking " ++ (name ++ ": TypeError: sequence item is not str") :=
      fun h => append_ne_of_not_sw _ _ _ (by decide) h.symm
    have nw1 : warningLine ≠ "[X] Error checking " ++ (name ++ ": KeyError: version") :=
      fun h => append_ne_of_not_sw _ _ _ (by decide) h.symm
    have nw2 : warningLine ≠ "[*] " ++ (name ++ ":") :=
      fun h => append_ne_of_not_sw _ _ _ (by decide) h.symm
    have nw3 : warningLine ≠
        "[X] Error checking " ++ (name ++ ": TypeError: sequence item is not str") :=
      fun h => append_ne_of_not_sw _ _ _ (by decide) h.symm
    by_cases hamv : activeWithMissingVersion b
    · rw [checkProfile, if_neg h1, if_pos hamv]
      refine ⟨Or.inl rfl, ?_, ?_⟩
      · simp [nv1]
      · simp [nw1]
    · have hvn : (versionsOpt b).any Option.isNone = true := by
        rw [List.any_eq_true]
        obtain ⟨e, he, hv⟩ := h2
        exact ⟨e.resource.version, List.mem_map.mpr ⟨e, he, rfl⟩, by simp [hv]⟩
      rw [checkProfile, if_neg h1, if_neg hamv, if_pos (by simp [hvn])]
      refine ⟨Or.inr rfl, ?_, ?_⟩
      · simp [nv2, nv3]
      · simp [nw2, nw3]
  · intro pre post nb
    simp [check_versions, List.flatMap_append, List.flatMap_cons]

/-- Witness for C10 at a concrete bundle whose only entry lacks a version. -/
theorem C10_missing_version_error_witness :
    verifiedLine ∉ checkProfile "Patient" bundleM :=
  (C10_missing_version_error.1 "Patient" bundleM (by decide) (by decide)).2.1

/-! ### Server Resource Counter: get_server_resource_summary
(src/main.py lines 103-138) -/

/-- Outcome of one count query: an HTTP response with a status code and the
optional total field of its JSON body, or a transport/parse exception. -/
inductive CountResult where
  | response (status : Nat) (total : Option Int)
  | exception (msg : String)
deriving DecidableEq

/-- One iteration of the counter loop (src/main.py lines 111-136): the value
stored in resource_counts for this type, and the lines printed for it. -/
def countEntry (rt : String) (r : CountResult) : Option Int × List String :=
  match r with
  | CountResult.response st t =>
    if st = 200 then
      let count := t.getD 0
      (some count,
        if count > 0 then ["[*] " ++ (rt ++ (": " ++ (toString count ++ " instances")))] else [])
    else if st = 404 then (none, [])
    else (none, ["[!] " ++ (rt ++ (": Unable to query (HTTP " ++ (toString st ++ ")")))])
  | CountResult.exception e => (none, ["[X] Error checking " ++ (rt ++ (": " ++ e))])

/-- The resource_counts map returned by get_server_resource_summary, given
the query outcome for each resource type.  The Python dict assigns each
tracked type exactly once, in list order, so it is the association list
mapping each tracked type to its stored count. -/
def get_server_resource_summary (f : String → CountResult) : List (String × Option Int) :=
  RESOURCE_TYPES_TO_CHECK.map (fun rt => (rt, (countEntry rt (f rt)).1))

/-- The per-type lines printed by get_server_resource_summary, in loop order. -/
def serverSummaryLines (f : String → CountResult) : List String :=
  RESOURCE_TYPES_TO_CHECK.flatMap (fun rt => (countEntry rt (f rt)).2)

lemma lookup_map_self {β : Type} (g : String → β) :
    ∀ (l : List String) (rt : String), rt ∈ l →
      (l.map (fun x => (x, g x))).lookup rt = some (g rt) := by
  intro l
  induction l with
  | nil => intro rt h; cases h
  | cons a t ih =>
    intro rt h
    by_cases hra : rt = a
    · subst hra
      simp [List.lookup]
    · have : rt ∈ t := by
        rcases List.mem_cons.mp h with h1 | h1
        · exact absurd h1 hra
        · exact h1
      have hbeq : (rt == a) = false := by simp [hra]
      simp only [List.map_cons, List.lookup, hbeq]
      exact ih rt this

/-- C3: the returned map has exactly one entry per tracked resource type,
in list order, regardless of failures; HTTP 200 with total t stores t,
HTTP 404 stores null (none) with nothing printed, and any other status or
a transport exception stores null after printing a warning line. -/
theorem C3_resource_counter (f : String → CountResult) :
    (get_server_resource_summary f).map Prod.fst = RESOURCE_TYPES_TO_CHECK
    ∧ (∀ rt ∈ RESOURCE_TYPES_TO_CHECK, ∀ t : Option Int,
        f rt = CountResult.response 200 t →
        (get_server_resource_summary f).lookup rt = some (some (t.getD 0)))
    ∧ (∀ rt ∈ RESOURCE_TYPES_TO_CHECK, ∀ t : Option Int,
        f rt = CountResult.response 404 t →
        (get_server_resource_summary f).lookup rt = some none)
    ∧ (∀ rt ∈ RESOURCE_TYPES_TO_CHECK, ∀ (st : Nat) (t : Option Int),
        st ≠ 200 → st ≠ 404 → f rt = CountResult.response st t →
        (get_server_resource_summary f).lookup rt = some none
          ∧ (countEntry rt (f rt)).2 ≠ [])
    ∧ (∀ rt ∈ RESOURCE_TYPES_TO_CHECK, ∀ e : String,
        f rt = CountResult.exception e →
        (get_server_resource_summary f).lookup rt = some none
          ∧ (countEntry rt (f rt)).2 ≠ []) := by
  refine ⟨?_, ?_, ?_, ?_, ?_⟩
  · rw [get_server_resource_summary, List.map_map]
    show List.map (fun rt => rt) RESOURCE_TYPES_TO_CHECK = RESOURCE_TYPES_TO_CHECK
    simp
  · intro rt hrt t hf
    rw [get_server_resource_summary, lookup_map_self _ _ rt hrt, hf]
    simp [countEntry]
  · intro rt hrt t hf
    rw [get_server_resource_summary, lookup_map_self _ _ rt hrt, hf]
    simp [countEntry]
  · intro rt hrt st t h200 h404 hf
    constructor
    · rw [get_server_resource_summary, lookup_map_self _ _ rt hrt, hf]
      simp [countEntry, h200, h404]
    · rw [hf]
      simp [countEntry, h200, h404]
  · intro rt hrt e hf
    constructor
    · rw [get_server_resource_summary, lookup_map_self _ _ rt hrt, hf]
      simp [countEntry]
    · rw [hf]
      simp [countEntry]

/-- Witness for C3: a server answering 404 everywhere stores null for
Patient, and a 200 with total 5 stores 5. -/
theorem C3_resource_counter_witness :
    (get_server_resource_summary (fun _ => CountResult.response 404 none)).lookup "Patient"
        = some none
    ∧ (get_server_resource_summary (fun _ => CountResult.response 200 (some 5))).lookup "Task"
        = some (some 5) :=
  ⟨(C3_resource_counter (fun _ => CountResult.response 404 none)).2.2.1 "Patient"
      (by decide) none rfl,
   by
    have h := (C3_resource_counter (fun _ => CountResult.response 200 (some 5))).2.1 "Task"
      (by decide) (some 5) rfl
    simpa using h⟩

/-- C9: on an HTTP 200 response the counter stores the total field when
present and defaults to 0 when it is absent (never null), and it prints a
per-type line exactly when the stored count is strictly positive, so a
supported type with zero instances is stored as 0 with no printed line. -/
theorem C9_total_default_and_print (rt : String) :
    countEntry rt (CountResult.response 200 none) = (some 0, [])
    ∧ (∀ t : Int, (countEntry rt (CountResult.response 200 (some t))).1 = some t
        ∧ ((countEntry rt (CountResult.response 200 (some t))).2 ≠ [] ↔ t > 0)) := by
  refine ⟨by simp [countEntry], ?_⟩
  intro t
  refine ⟨by simp [countEntry], ?_⟩
  by_cases ht : t > 0
  · simp [countEntry, ht]
  · simp [countEntry, ht]

/-! ### Test-Data Corpus Scanner: get_github_test_data_summary
(src/main.py lines 141-295) -/

/-- A GitHub contents-API item: its type field (dir or file) and name. -/
structure GHItem where
  type : String
  name : String
deriving DecidableEq

/-- The corpus file index built by the scanner: a defaultdict(list) whose
keys appear in insertion order and whose values are append-only file lists,
modelled as an association list. -/
abbrev Index := List (String × List String)

/-- Appending path p to the file list of resource type rt, as
test_data_files[rt].append(p) does on a defaultdict(list). -/
def addFile : Index → String → String → Index
  | [], rt, p => [(rt, [p])]
  | (k, ps) :: rest, rt, p =>
    if k = rt then (k, ps ++ [p]) :: rest else (k, ps) :: addFile rest rt p

/-- Phase-1 classification of a filename (src/main.py lines 199-203): the
first resource type in the fixed list whose name is a prefix of the
filename, if any. -/
def classify (filename : String) : Option String :=
  RESOURCE_TYPES_TO_CHECK.find? (fun rt => pyStartsWith filename rt)

/-- Processing the child listing of one filtered directory (src/main.py
lines 192-205): each item that is a file with a .json name is classified by
resource-type prefix and, on a match, its dir-qualified path is appended to
the index; unmatched files are only reported, never stored. -/
def processDirItems (dirName : String) (items : List GHItem) (idx : Index) : Index :=
  items.foldl (fun acc item =>
    if item.type = "file" ∧ pyEndsWith item.name ".json" = true then
      match classify item.name with
      | some rt => addFile acc rt (dirName ++ ("/" ++ item.name))
      | none => acc
    else acc) idx

/-- Input to Phase 1: the top-level contents listing (none models a fetch
failure of the whole listing, which aborts Phase 1), and for each directory
name the result of fetching its children (none models a per-directory fetch
exception, which skips that directory). -/
structure Phase1Input where
  contents : Option (List GHItem)
  dirFetch : String → Option (List GHItem)

/-- The directory filter of src/main.py lines 162-170: keep items of type
dir whose name starts with one of the configured filter strings. -/
def filteredDirs (contents : List GHItem) : List GHItem :=
  contents.filter (fun it =>
    it.type == "dir" && TEST_DATA_FILTERS.any (fun fp => pyStartsWith it.name fp))

/-- Phase 1 of the corpus scanner (src/main.py lines 153-227): list the
repository path, filter directories, and classify the JSON files of each
directory that could be fetched. -/
def phase1 (inp : Phase1Input) : Index :=
  match inp.contents with
  | none => []
  | some contents =>
    (filteredDirs contents).foldl (fun idx d =>
      match inp.dirFetch d.name with
      | none => idx
      | some items => processDirItems d.name items idx) []

/-- The missing_types computation of src/main.py line 246: the tracked
resource types with no key in the index after Phase 1; exactly these are
queried by the Phase-2 search fallback. -/
def missingTypes (idx : Index) : List String :=
  RESOURCE_TYPES_TO_CHECK.filter (fun rt => (idx.lookup rt).isNone)

/-- Outcome of one Phase-2 search-page request: a response with HTTP status,
the optional total_count field, and the item paths, or a transport
exception. -/
inductive PageResult where
  | response (status : Nat) (total_count : Option Nat) (items : List String)
  | exn (msg : String)
deriving DecidableEq

/-- Result of the Phase-2 pagination loop for one resource type: the paths
accepted by the defensive re-check, the accumulated total_found counter,
the number of pages actually requested, and whether a request raised. -/
structure SearchResult where
  files : List String
  totalFound : Nat
  fetched : Nat
  raised : Bool
deriving DecidableEq

/-- The while-loop of src/main.py lines 258-288, with the remaining page
budget as fuel (the loop guard page less-or-equal 10 bounds it to 10
pages).  A 200 page stops the loop when it has no items; otherwise the
items whose path contains the literal substring /rt- are appended, and the
loop stops when total_found reaches the total_count of the page (absent
total_count read as 0) or the page has fewer than 100 items.  A non-200
status breaks the loop; an exception aborts it, keeping prior appends. -/
def searchLoop (rt : String) (pages : Nat → PageResult) :
    Nat → Nat → Nat → List String → SearchResult
  | 0, _, tf, acc => ⟨acc, tf, 0, false⟩
  | fuel + 1, page, tf, acc =>
    match pages page with
    | PageResult.exn _ => ⟨acc, tf, 1, true⟩
    | PageResult.response st tc items =>
      if st = 200 then
        if items.isEmpty then ⟨acc, tf, 1, false⟩
        else
          let accepted := items.filter (fun p => strHas p ("/" ++ (rt ++ "-")))
          let acc2 := acc ++ accepted
          let tf2 := tf + accepted.length
          if tf2 ≥ tc.getD 0 ∨ items.length < 100 then ⟨acc2, tf2, 1, false⟩
          else
            let r := searchLoop rt pages fuel (page + 1) tf2 acc2
            ⟨r.files, r.totalFound, r.fetched + 1, r.raised⟩
      else ⟨acc, tf, 1, false⟩

/-- The Phase-2 pagination for one resource type, started at page 1 with a
budget of 10 pages (src/main.py lines 256-288). -/
def searchRun (rt : String) (pages : Nat → PageResult) : SearchResult :=
  searchLoop rt pages 10 1 0 []

/-- The lines printed by the Phase-2 block for one resource type
(src/main.py lines 290-293): the found-count debug line when the loop
finished with a positive total_found, the failure debug line when a request
raised, and nothing otherwise; in particular a non-200 page breaks the loop
silently. -/
def phase2TypeLines (rt : String) (pages : Nat → PageResult) : List String :=
  let r := searchRun rt pages
  if r.raised then ["[DEBUG] Search API failed for " ++ (rt ++ ": error")]
  else if r.totalFound > 0 then
    ["[DEBUG] Found " ++ (toString r.totalFound ++ (" " ++ (rt ++ " files via search API")))]
  else []

/-- Phase 2 of the corpus scanner (src/main.py lines 244-293): for each
tracked type missing from the Phase-1 index, run the search pagination and
append every accepted path to that type's file list. -/
def phase2 (idx1 : Index) (search : String → Nat → PageResult) : Index :=
  (missingTypes idx1).foldl (fun idx rt =>
    (searchRun rt (search rt)).files.foldl (fun i p => addFile i rt p) idx) idx1

/-- The full corpus scanner get_github_test_data_summary, given the Phase-1
listing inputs and the Phase-2 search responses. -/
def get_github_test_data_summary (inp : Phase1Input)
    (search : String → Nat → PageResult) : Index :=
  phase2 (phase1 inp) search

/-- The file list recorded for a resource type (empty when the key is
absent), as the comparator reads it via github_files.get(rt, []). -/
def ghFiles (gh : Index) (rt : String) : List String := (gh.lookup rt).getD []

/-! ### Index invariants -/

/-- Every key of the index carries a non-empty file list. -/
def goodIndex (idx : Index) : Prop := ∀ kv ∈ idx, kv.2 ≠ ([] : List String)

lemma lookup_mem {β : Type} :
    ∀ (l : List (String × β)) (k : String) (v : β), l.lookup k = some v → (k, v) ∈ l := by
  intro l
  induction l with
  | nil => intro k v h; cases h
  | cons kv t ih =>
    intro k v h
    rw [List.lookup] at h
    split at h
    next heq =>
      injection h with h
      subst h
      have hk : k = kv.1 := by simpa using heq
      subst hk
      exact List.mem_cons_self kv t
    next heq =>
      exact List.mem_cons_of_mem _ (ih k v h)

lemma addFile_good (idx : Index) (rt p : String) (h : goodIndex idx) :
    goodIndex (addFile idx rt p) := by
  induction idx with
  | nil =>
    intro kv hkv
    rcases List.mem_singleton.mp hkv with rfl
    simp
  | cons kps rest ih =>
    obtain ⟨k, ps⟩ := kps
    rw [addFile]
    by_cases hk : k = rt
    · rw [if_pos hk]
      intro kv hkv
      rcases List.mem_cons.mp hkv with rfl | hkv
      · simp
      · exact h kv (List.mem_cons_of_mem _ hkv)
    · rw [if_neg hk]
      intro kv hkv
      rcases List.mem_cons.mp hkv with rfl | hkv
      · exact h (k, ps) (List.mem_cons_self _ _)
      · exact ih (fun kv hkv => h kv (List.mem_cons_of_mem _ hkv)) kv hkv

lemma foldl_preserve {β : Type} (P : Index → Prop) (step : Index → β → Index)
    (hstep : ∀ i b, P i → P (step i b)) :
    ∀ (l : List β) (i : Index), P i → P (l.foldl step i) := by
  intro l
  induction l with
  | nil => intro i h; exact h
  | cons b t ih => intro i h; exact ih (step i b) (hstep i b h)

lemma processDirItems_good (d : String) (items : List GHItem) (idx : Index)
    (h : goodIndex idx) : goodIndex (processDirItems d items idx) := by
  refine foldl_preserve goodIndex _ ?_ items idx h
  intro i item hi
  by_cases hc : item.type = "file" ∧ pyEndsWith item.name ".json" = true
  · rw [if_pos hc]
    cases hcl : classify item.name with
    | none => exact hi
    | some rt => exact addFile_good i rt _ hi
  · rw [if_neg hc]
    exact hi

lemma phase1_good (inp : Phase1Input) : goodIndex (phase1 inp) := by
  rw [phase1]
  cases inp.contents with
  | none => intro kv hkv; cases hkv
  | some contents =>
    refine foldl_preserve goodIndex _ ?_ _ [] (by intro kv hkv; cases hkv)
    intro i d hi
    cases inp.dirFetch d.name with
    | none => exact hi
    | some items => exact processDirItems_good d.name items i hi

lemma phase2_good (idx : Index) (search : String → Nat → PageResult)
    (h : goodIndex idx) : goodIndex (phase2 idx search) := by
  refine foldl_preserve goodIndex _ ?_ _ idx h
  intro i rt hi
  refine foldl_preserve goodIndex _ ?_ _ i hi
  intro j p hj
  exact addFile_good j rt p hj

lemma scanner_good (inp : Phase1Input) (search : String → Nat → PageResult) :
    goodIndex (get_github_test_data_summary inp search) :=
  phase2_good (phase1 inp) search (phase1_good inp)

/-- In an index whose values are all non-empty, the key test used by the
code agrees with emptiness of the recorded file list. -/
lemma good_isNone_iff (idx : Index) (h : goodIndex idx) (rt : String) :
    ((idx.lookup rt).isNone = true) ↔ ghFiles idx rt = [] := by
  cases hl : idx.lookup rt with
  | none => simp [ghFiles, hl]
  | some v => simp [ghFiles, hl, h _ (lookup_mem _ _ _ hl)]

/-! ### C4, C5, C6 -/

lemma find?_eq_some_split {α : Type} (p : α → Bool) :
    ∀ (l : List α) (a : α), l.find? p = some a ↔
      ∃ l1 l2, l = l1 ++ a :: l2 ∧ p a = true ∧ ∀ x ∈ l1, p x = false := by
  intro l
  induction l with
  | nil =>
    intro a
    simp only [List.find?_nil]
    constructor
    · intro h; cases h
    · rintro ⟨l1, l2, heq, -, -⟩
      exact absurd heq.symm (List.append_ne_nil_of_right_ne_nil _ (List.cons_ne_nil _ _))
  | cons b t ih =>
    intro a
    cases hp : p b with
    | true =>
      rw [List.find?_cons_of_pos _ hp]
      constructor
      · intro he
        injection he with he
        subst he
        exact ⟨[], t, rfl, hp, by simp⟩
      · rintro ⟨l1, l2, heq, hpa, hall⟩
        cases l1 with
        | nil =>
          simp only [List.nil_append, List.cons.injEq] at heq
          rw [heq.1]
        | cons c l1 =>
          injection heq with hb ht2
          subst hb
          have := hall b (List.mem_cons_self _ _)
          rw [this] at hp
          cases hp
    | false =>
      rw [List.find?_cons_of_neg _ (by simp [hp]), ih a]
      constructor
      · rintro ⟨l1, l2, heq, hpa, hall⟩
        refine ⟨b :: l1, l2, by rw [heq]; rfl, hpa, ?_⟩
        intro x hx
        rcases List.mem_cons.mp hx with rfl | hx
        · exact hp
        · exact hall x hx
      · rintro ⟨l1, l2, heq, hpa, hall⟩
        cases l1 with
        | nil =>
          simp only [List.nil_append, List.cons.injEq] at heq
          rw [heq.1] at hp
          rw [hpa] at hp
          cases hp
        | cons c l1 =>
          injection heq with hb ht2
          subst hb
          exact ⟨l1, l2, ht2, hpa, fun x hx => hall x (List.mem_cons_of_mem _ hx)⟩

/-- C4: Phase-1 corpus classification is first-match-wins over the fixed
resource-type list in list order: a filename is assigned the first tracked
type whose name is a prefix of it; since Practitioner precedes
PractitionerRole in the fixed list, PractitionerRole-001.json is classified
under Practitioner, also when a directory listing is processed. -/
theorem C4_first_match_wins :
    (∀ (f rt : String), classify f = some rt ↔
        ∃ l1 l2, RESOURCE_TYPES_TO_CHECK = l1 ++ rt :: l2 ∧ pyStartsWith f rt = true
          ∧ ∀ x ∈ l1, pyStartsWith f x = false)
    ∧ classify "PractitionerRole-001.json" = some "Practitioner"
    ∧ processDirItems "au-core" [⟨"file", "PractitionerRole-001.json"⟩] []
        = [("Practitioner", ["au-core/PractitionerRole-001.json"])] := by
  refine ⟨?_, by decide, by decide⟩
  intro f rt
  rw [classify]
  exact find?_eq_some_split _ RESOURCE_TYPES_TO_CHECK rt

/-- C5: a tracked resource type is queried by the Phase-2 search fallback
(it is in missing_types) iff it has zero entries in the corpus file index
after Phase 1; a type with at least one Phase-1 entry is never in
missing_types and hence never queried, since phase2 iterates exactly
missing_types. -/
theorem C5_phase2_eligibility (inp : Phase1Input) (rt : String) :
    rt ∈ missingTypes (phase1 inp) ↔
      (rt ∈ RESOURCE_TYPES_TO_CHECK ∧ ghFiles (phase1 inp) rt = []) := by
  rw [missingTypes, List.mem_filter,
    good_isNone_iff (phase1 inp) (phase1_good inp) rt]

/-- C6: after both phases the scanner map has a key for a resource type iff
its recorded file list is non-empty: no key is ever present with an empty
list, and absence of the key means zero matched files over both phases. -/
theorem C6_key_iff_files (inp : Phase1Input) (search : String → Nat → PageResult)
    (rt : String) :
    ((get_github_test_data_summary inp search).lookup rt).isSome = true ↔
      ghFiles (get_github_test_data_summary inp search) rt ≠ [] := by
  have h := good_isNone_iff _ (scanner_good inp search) rt
  cases hl : (get_github_test_data_summary inp search).lookup rt with
  | none =>
    have hg : ghFiles (get_github_test_data_summary inp search) rt = [] := by
      simp [ghFiles, hl]
    simp [hl, hg]
  | some v =>
    rw [hl] at h
    simp only [hl, Option.isSome_some, true_iff]
    intro hv
    have := h.mpr hv
    cases this

/-! ### C7: pagination bounds of the Phase-2 search loop -/

lemma searchLoop_fetched_le (rt : String) (pages : Nat → PageResult) :
    ∀ (fuel page tf : Nat) (acc : List String),
      (searchLoop rt pages fuel page tf acc).fetched ≤ fuel := by
  intro fuel
  induction fuel with
  | zero => intro page tf acc; exact Nat.le_refl 0
  | succ f ih =>
    intro page tf acc
    cases hpp : pages page with
    | exn m =>
      simp only [searchLoop, hpp]
      exact Nat.succ_le_succ (Nat.zero_le f)
    | response st tc items =>
      simp only [searchLoop, hpp]
      by_cases h200 : st = 200
      · rw [if_pos h200]
        by_cases hemp : items.isEmpty
        · rw [if_pos hemp]
          exact Nat.succ_le_succ (Nat.zero_le f)
        · rw [if_neg hemp]
          by_cases hstop : tf + (items.filter (fun p => strHas p ("/" ++ (rt ++ "-")))).length
              ≥ tc.getD 0 ∨ items.length < 100
          · rw [if_pos hstop]
            exact Nat.succ_le_succ (Nat.zero_le f)
          · rw [if_neg hstop]
            exact Nat.succ_le_succ (ih _ _ _)
      · rw [if_neg h200]
        exact Nat.succ_le_succ (Nat.zero_le f)

lemma searchLoop_files_accepted (rt : String) (pages : Nat → PageResult) :
    ∀ (fuel page tf : Nat) (acc : List String),
      (∀ x ∈ acc, strHas x ("/" ++ (rt ++ "-")) = true) →
      ∀ p ∈ (searchLoop rt pages fuel page tf acc).files,
        strHas p ("/" ++ (rt ++ "-")) = true := by
  intro fuel
  induction fuel with
  | zero => intro page tf acc hacc; exact hacc
  | succ f ih =>
    intro page tf acc hacc
    cases hpp : pages page with
    | exn m =>
      simp only [searchLoop, hpp]
      exact hacc
    | response st tc items =>
      simp only [searchLoop, hpp]
      by_cases h200 : st = 200
      · rw [if_pos h200]
        by_cases hemp : items.isEmpty
        · rw [if_pos hemp]
          exact hacc
        · rw [if_neg hemp]
          have hacc2 : ∀ x ∈ acc ++ items.filter (fun p => strHas p ("/" ++ (rt ++ "-"))),
              strHas x ("/" ++ (rt ++ "-")) = true := by
            intro x hx
            rcases List.mem_append.mp hx with hx | hx
            · exact hacc x hx
            · exact (List.mem_filter.mp hx).2
          by_cases hstop : tf + (items.filter (fun p => strHas p ("/" ++ (rt ++ "-")))).length
              ≥ tc.getD 0 ∨ items.length < 100
          · rw [if_pos hstop]
            exact hacc2
          · rw [if_neg hstop]
            exact ih _ _ _ hacc2
      · rw [if_neg h200]
        exact hacc

/-- Page stream whose pages are 200 responses with no items. -/
def sPagesEmpty : Nat → PageResult := fun _ => PageResult.response 200 (some 0) []

/-- Page stream answering 403 (a non-200 status) on every page. -/
def sPagesDenied : Nat → PageResult := fun _ => PageResult.response 403 none ["dir/Task-0.json"]

/-- Page stream returning one short 200 page with one matching and one
non-matching path. -/
def sPagesShort : Nat → PageResult :=
  fun _ => PageResult.response 200 (some 5) ["dir/Task-0.json", "dir/Other.json"]

/-- Page stream returning full 100-item pages with total_count 1, so the
accepted-count stop condition fires on the first page. -/
def sPagesTotal : Nat → PageResult :=
  fun _ => PageResult.response 200 (some 1) (List.replicate 100 "dir/Task-0.json")

/-- Page stream with a full first page, total_count 150 and a 50-item
second page, so exactly two pages are fetched. -/
def sPagesTwo : Nat → PageResult := fun p =>
  if p = 1 then PageResult.response 200 (some 150) (List.replicate 100 "dir/Task-0.json")
  else PageResult.response 200 (some 150) (List.replicate 50 "dir/Task-0.json")

/-- C7: for every resource type the Phase-2 loop requests at most 10 pages
and terminates; every accepted path contains the literal substring /rt-;
and the loop stops after one page when the page has no items, when the
status is not 200, when the page is shorter than 100 items, or when the
accepted count reaches the reported total_count, while a full page below
the total leads to a second request. -/
theorem C7_search_pagination :
    (∀ (rt : String) (pages : Nat → PageResult), (searchRun rt pages).fetched ≤ 10)
    ∧ (∀ (rt : String) (pages : Nat → PageResult) (p : String),
        p ∈ (searchRun rt pages).files → strHas p ("/" ++ (rt ++ "-")) = true)
    ∧ searchRun "Task" sPagesEmpty = ⟨[], 0, 1, false⟩
    ∧ searchRun "Task" sPagesDenied = ⟨[], 0, 1, false⟩
    ∧ searchRun "Task" sPagesShort = ⟨["dir/Task-0.json"], 1, 1, false⟩
    ∧ ((searchRun "Task" sPagesTotal).fetched = 1
        ∧ (searchRun "Task" sPagesTotal).totalFound = 100)
    ∧ ((searchRun "Task" sPagesTwo).fetched = 2
        ∧ (searchRun "Task" sPagesTwo).totalFound = 150) := by
  refine ⟨?_, ?_, by decide, by decide, by decide, by decide, by decide⟩
  · intro rt pages
    exact searchLoop_fetched_le rt pages 10 1 0 []
  · intro rt pages p hp
    exact searchLoop_files_accepted rt pages 10 1 0 [] (by intro x hx; cases hx) p hp

/-- Witness for C7: the accepted-path property applied to the concrete file
found by the short-page stream. -/
theorem C7_search_pagination_witness :
    strHas "dir/Task-0.json" ("/" ++ ("Task" ++ "-")) = true :=
  C7_search_pagination.2.1 "Task" sPagesShort "dir/Task-0.json" (by decide)

/-! ### Comparator/Reporter: compare_server_to_github
(src/main.py lines 298-332) -/

/-- server_counts.get(resource_type, 0) of src/main.py line 305: the stored
count when the key is present (which may be null), else the default 0. -/
def serverGet (sc : List (String × Option Int)) (rt : String) : Option Int :=
  match sc.lookup rt with
  | some v => v
  | none => some 0

/-- The status text of one comparison row (src/main.py lines 312-324). -/
def statusOf (server_count : Option Int) (github_count : Int) : String :=
  match server_count with
  | none => "❓ Not available on server"
  | some s =>
    if s = 0 ∧ github_count > 0 then
      "⚠️  Missing - GitHub has test data but server has none"
    else if s > 0 ∧ github_count = 0 then
      "⚠️  Server has data but no GitHub test files (missing test data reference)"
    else if s = github_count then
      "✅ Perfect match (" ++ (toString s ++ " instances)")
    else if s > github_count then
      "⚠️  ERROR: Server has more instances than test data ("
        ++ (toString s ++ (" vs " ++ (toString github_count ++ ")")))
    else
      "⚠️  Server has fewer instances ("
        ++ (toString s ++ (" vs " ++ (toString github_count ++ ")")))

/-- The row printed for one resource type of the union (src/main.py lines
304-326): none when the continue at line 309 suppresses it, otherwise the
printed line. -/
def compareRowLine (sc : List (String × Option Int)) (gh : Index) (rt : String) :
    Option String :=
  if serverGet sc rt = none ∧ ((ghFiles gh rt).length : Int) = 0 then none
  else some ("[*] " ++ (rt ++ (": " ++ statusOf (serverGet sc rt) ((ghFiles gh rt).length : Int))))

/-- Code-point lexicographic comparison of char lists, as Python compares
strings. -/
def charListLt : List Char → List Char → Bool
  | [], [] => false
  | [], _ :: _ => true
  | _ :: _, [] => false
  | a :: as, b :: bs =>
    if a.toNat < b.toNat then true
    else if b.toNat < a.toNat then false
    else charListLt as bs

/-- Python string less-than. -/
def strLtB (a b : String) : Bool := charListLt a.data b.data

/-- Insertion into an ascending list, for modelling Python sorted(). -/
def insertSorted (x : String) : List String → List String
  | [] => [x]
  | y :: ys => if strLtB x y then x :: y :: ys else y :: insertSorted x ys

/-- Python sorted() on strings, as insertion sort. -/
def sortStrs (l : List String) : List String := l.foldr insertSorted []

/-- Duplicate removal, modelling the set() construction. -/
def dedupAux : List String → List String → List String
  | _, [] => []
  | seen, x :: xs =>
    if seen.contains x then dedupAux seen xs else x :: dedupAux (x :: seen) xs

/-- sorted(set(server_counts.keys()) | set(github_files.keys())) of
src/main.py lines 302-304. -/
def unionKeys (sc : List (String × Option Int)) (gh : Index) : List String :=
  sortStrs (dedupAux [] (sc.map Prod.fst ++ gh.map Prod.fst))

/-- The rows printed by compare_server_to_github (src/main.py lines
298-326), one per union key in sorted order, suppressed rows omitted. -/
def compare_server_to_github (sc : List (String × Option Int)) (gh : Index) :
    List String :=
  (unionKeys sc gh).filterMap (fun rt => compareRowLine sc gh rt)

/-- C1 counterexample: a resource type with server count 0 and corpus count
0 is not suppressed; the comparator prints a Perfect match (0 instances)
row for it, contradicting the claim that such a row is suppressed. -/
theorem C1_counterexample :
    compare_server_to_github [("Observation", some 0)] []
      = ["[*] Observation: ✅ Perfect match (0 instances)"] := by decide

/-- C1 (amended): a comparison row is suppressed iff the server count is
null and the corpus count is 0; in particular server null with corpus 0
prints nothing, while server 0 with corpus 0 prints a Perfect match (0
instances) row. -/
theorem C1_row_suppression :
    (∀ (sc : List (String × Option Int)) (gh : Index) (rt : String),
        compareRowLine sc gh rt = none ↔ (serverGet sc rt = none ∧ ghFiles gh rt = []))
    ∧ compare_server_to_github [("Observation", none)] [] = []
    ∧ statusOf (some 0) 0 = "✅ Perfect match (0 instances)"
    ∧ compareRowLine [("Observation", some 0)] [] "Observation"
        = some "[*] Observation: ✅ Perfect match (0 instances)" := by
  refine ⟨?_, by decide, by decide, by decide⟩
  intro sc gh rt
  rw [compareRowLine]
  by_cases h : serverGet sc rt = none ∧ ((ghFiles gh rt).length : Int) = 0
  · rw [if_pos h]
    obtain ⟨h1, h2⟩ := h
    exact ⟨fun _ => ⟨h1, by simpa using h2⟩, fun _ => rfl⟩
  · rw [if_neg h]
    constructor
    · intro hc
      exact absurd hc (by simp)
    · rintro ⟨h1, h2⟩
      exact absurd ⟨h1, by simp [h2]⟩ h

/-! ### C8: silent and non-silent failure handling -/

/-- C8 counterexample: with every count query answering HTTP 404, the
counter records null for Patient (a failure treated as no data) yet the
whole phase prints no line at all, contradicting the claim that an HTTP
404 on a count query produces a printed diagnostic. -/
theorem C8_counterexample :
    serverSummaryLines (fun _ => CountResult.response 404 none) = []
    ∧ (get_server_resource_summary (fun _ => CountResult.response 404 none)).lookup "Patient"
        = some none := ⟨by decide, by decide⟩

/-- C8 (amended): every caught exception prints a diagnostic line (counter
exception, Phase-2 search exception), and a non-404 non-200 count status
prints a warning; but an HTTP 404 on a count query and a non-200 response
on a Phase-2 search page are handled silently, storing or returning no
data without printing anything. -/
theorem C8_silent_failures :
    (∀ (rt e : String), (countEntry rt (CountResult.exception e)).2 ≠ [])
    ∧ (∀ (rt : String) (st : Nat) (t : Option Int), st ≠ 200 → st ≠ 404 →
        (countEntry rt (CountResult.response st t)).2 ≠ [])
    ∧ (∀ (rt : String) (t : Option Int), (countEntry rt (CountResult.response 404 t)).2 = [])
    ∧ (∀ (rt : String) (pages : Nat → PageResult), (searchRun rt pages).raised = true →
        phase2TypeLines rt pages ≠ [])
    ∧ (∀ (rt : String) (pages : Nat → PageResult) (st : Nat) (tc : Option Nat)
        (items : List String), st ≠ 200 → pages 1 = PageResult.response st tc items →
        phase2TypeLines rt pages = []) := by
  refine ⟨?_, ?_, ?_, ?_, ?_⟩
  · intro rt e
    simp [countEntry]
  · intro rt st t h200 h404
    simp [countEntry, h200, h404]
  · intro rt t
    simp [countEntry]
  · intro rt pages h
    rw [phase2TypeLines]
    simp only [h]
    simp
  · intro rt pages st tc items h200 hp
    have hrun : searchRun rt pages = ⟨[], 0, 1, false⟩ := by
      rw [searchRun]
      simp only [searchLoop, hp]
      rw [if_neg h200]
    rw [phase2TypeLines, hrun]
    simp

/-- Witness for C8 at a concrete non-200, non-404 count status. -/
theorem C8_silent_failures_witness :
    (countEntry "Patient" (CountResult.response 500 none)).2 ≠ [] :=
  C8_silent_failures.2.1 "Patient" 500 none (by decide) (by decide)

/-- Witness for C1: the suppression rule applied to a concrete map where
Observation is unsupported on the server and absent from the corpus. -/
theorem C1_row_suppression_witness :
    compareRowLine [("Observation", none)] [] "Observation" = none :=
  (C1_row_suppression.1 [("Observation", none)] [] "Observation").mpr
    ⟨by decide, by decide⟩

/-- Witness for C4: the first-match characterisation instantiated at the
ambiguous filename, with Practitioner preceding PractitionerRole. -/
theorem C4_first_match_wins_witness :
    classify "PractitionerRole-001.json" = some "Practitioner" :=
  (C4_first_match_wins.1 "PractitionerRole-001.json" "Practitioner").mpr
    ⟨["Patient"],
     ["PractitionerRole", "Organization", "HealthcareService", "Location",
      "ServiceRequest", "RelatedPerson", "Observation", "DocumentReference",
      "Task", "CommunicationRequest"],
     by decide, by decide, by decide⟩

/-- Phase-1 input with an empty top-level listing: no directory survives,
so the Phase-1 index is empty. -/
def inpEmpty : Phase1Input := ⟨some [], fun _ => none⟩

/-- Search responses that find one Task file on page 1 and nothing for any
other resource type. -/
def sSearchOne : String → Nat → PageResult := fun rt p =>
  if rt = "Task" ∧ p = 1 then PageResult.response 200 (some 1) ["dir/Task-0.json"]
  else PageResult.response 200 (some 0) []

/-- Witness for C5: with an empty Phase-1 index every tracked type is
eligible for the Phase-2 fallback, concretely Task. -/
theorem C5_phase2_eligibility_witness :
    "Task" ∈ missingTypes (phase1 inpEmpty) :=
  (C5_phase2_eligibility inpEmpty "Task").mpr ⟨by decide, by decide⟩

/-- Witness for C6: after Phase 2 finds one Task file, the scanner map has
a Task key. -/
theorem C6_key_iff_files_witness :
    ((get_github_test_data_summary inpEmpty sSearchOne).lookup "Task").isSome = true :=
  (C6_key_iff_files inpEmpty sSearchOne "Task").mpr (by decide)

/-- Witness for C9: a 200 response with total 5 prints a per-type line. -/
theorem C9_total_default_and_print_witness :
    (countEntry "Patient" (CountResult.response 200 (some 5))).2 ≠ [] :=
  ((C9_total_default_and_print "Patient").2 5).2.mpr (by decide)

end CheckSparked
